import Mathlib

/-!
Shallow embedding of the order-service demo (src/app.js): an Express app
instrumented with OpenTelemetry.  The handlers are modelled as pure
state-passing functions.  Time is an explicit clock (rationals, in
milliseconds) that advances by each simulated delay; every call to
Math.random() becomes an explicit rational draw passed in as input.
-/

namespace OrderService

/-- A traced span: name, optional parent (index into the span list),
string attributes, error status (the message, when set), start time and
end time (none until the span is ended). -/
structure Span where
  name : String
  parent : Option Nat
  attrs : List (String × String)
  statusError : Option String
  startTime : ℚ
  endTime : Option ℚ
deriving Repr, DecidableEq

/-- Ending a span records the end timestamp once; later calls are no-ops. -/
def Span.endAt (sp : Span) (t : ℚ) : Span :=
  match sp.endTime with
  | some _ => sp
  | none => { sp with endTime := some t }

/-- span.setStatus with code ERROR and a message. -/
def Span.setStatusError (sp : Span) (msg : String) : Span :=
  { sp with statusError := some msg }

/-- End the span stored at index `i` of a span list at time `t`. -/
def endSpanAt (spans : List Span) (i : Nat) (t : ℚ) : List Span :=
  spans.mapIdx (fun j sp => if j = i then sp.endAt t else sp)

/-- An order as built by the POST /orders handler. -/
structure Order where
  id : String
  amount : ℚ
  status : String
deriving Repr, DecidableEq

/-- The in-memory store `ordersDb` is a JS object keyed by order id;
modelled as an association list in insertion order. -/
abbrev Store := List (String × Order)

/-- ordersDb[k] = v : overwrites an existing key in place, otherwise
appends (JS object property assignment keeps insertion order). -/
def storeSet (db : Store) (k : String) (v : Order) : Store :=
  if (List.any db (fun p => p.1 = k)) then
    List.map (fun p : String × Order => if p.1 = k then (k, v) else p) db
  else
    db ++ [(k, v)]

/-- ordersDb[k] lookup. -/
def storeGet (db : Store) (k : String) : Option Order :=
  Option.map Prod.snd (List.find? (fun p => p.1 = k) db)

/-- Object.values(ordersDb). -/
def storeValues (db : Store) : List Order :=
  List.map Prod.snd db

/-- Whole-process observable state threaded through the handlers:
the clock, every span ever started, the order store, the two label
cells of the orders_created counter, the orders_in_progress
up-down-counter, and the list of values recorded into the
order_processing_duration_seconds histogram. -/
structure St where
  clock : ℚ
  spans : List Span
  ordersDb : Store
  countSuccess : Nat
  countError : Nat
  gauge : Int
  histogram : List ℚ
deriving Repr, DecidableEq

/-- simulateDbQuery: opens a `db.<queryType>` child span with the two db
attributes, waits a uniform delay in [lo, hi) drawn via `r`, then ends
the span.  `parent` is the active span at the call site. -/
def simulateDbQuery (queryType : String) (lo hi : ℚ) (r : ℚ)
    (parent : Option Nat) (s : St) : St :=
  let delay := r * (hi - lo) + lo
  let sp : Span :=
    { name := String.append "db." queryType
      parent := parent
      attrs := [("db.system", "postgresql"), ("db.operation", queryType)]
      statusError := none
      startTime := s.clock
      endTime := none }
  let sp := sp.endAt (s.clock + delay)
  { s with clock := s.clock + delay, spans := s.spans ++ [sp] }

/-- The payment delay draw: with the slow draw below 0.1 the delay is
rDelay * 2000 + 1000, otherwise rDelay * 150 + 50. -/
def paymentDelay (rSlow rDelay : ℚ) : ℚ :=
  if rSlow < 1/10 then rDelay * 2000 + 1000 else rDelay * 150 + 50

/-- simulatePaymentProcessing: opens a `payment.process` child span with
the order id and amount attributes (and `payment.slow` when the slow
draw fires), waits the drawn delay, then with the failure draw below
0.05 sets the span status to ERROR with message "Payment declined",
ends the span and rejects with that error; otherwise ends the span and
resolves.  The second component is the promise outcome. -/
def simulatePaymentProcessing (orderId : String) (amount : ℚ)
    (rSlow rDelay rFail : ℚ) (parent : Option Nat) (s : St) :
    St × Except String Unit :=
  let delay := paymentDelay rSlow rDelay
  let sp : Span :=
    { name := "payment.process"
      parent := parent
      attrs :=
        [("payment.order_id", orderId), ("payment.amount", toString amount)]
          ++ (if rSlow < 1/10 then [("payment.slow", "true")] else [])
      statusError := none
      startTime := s.clock
      endTime := none }
  if rFail < 1/20 then
    let sp := (sp.setStatusError "Payment declined").endAt (s.clock + delay)
    ({ s with clock := s.clock + delay, spans := s.spans ++ [sp] },
      Except.error "Payment declined")
  else
    let sp := sp.endAt (s.clock + delay)
    ({ s with clock := s.clock + delay, spans := s.spans ++ [sp] },
      Except.ok ())

/-- The random draws consumed by one POST /orders request, in the order
the code makes them: order id, amount, one delay draw per db step, and
the slow / delay / failure draws of the payment step. -/
structure Draws where
  rId : ℚ
  rAmount : ℚ
  rInv : ℚ
  rIns : ℚ
  rSlow : ℚ
  rPayDelay : ℚ
  rFail : ℚ
  rUpd : ℚ
deriving Repr, DecidableEq

/-- orderId = String(Math.floor(Math.random() * 90000) + 10000). -/
def genOrderId (rId : ℚ) : String :=
  toString (⌊rId * 90000⌋ + 10000)

/-- amount = Math.round((Math.random() * 490 + 10) * 100) / 100. -/
def genAmount (rAmount : ℚ) : ℚ :=
  (round ((rAmount * 490 + 10) * 100) : ℤ) / 100

/-- Response of the POST /orders handler: 201 with the created order, or
500 with the caught error message. -/
inductive PostResponse where
  | created (o : Order)
  | serverError (msg : String)
deriving Repr, DecidableEq

/-- The HTTP status code of a POST /orders response. -/
def PostResponse.code : PostResponse → Nat
  | .created _ => 201
  | .serverError _ => 500

/-- The POST /orders handler.  Entry: record startTime, bump the in-flight
gauge.  Under the root `create_order` span: draw id and amount, set them
as attributes, run check_inventory, insert_order, the payment step, then
update_order_status, store the order, bump the success counter, end the
root span and respond 201.  A rejection from the payment step is caught:
the error counter is bumped and the handler responds 500 (the root span
is left as the catch block leaves it).  Finally (both paths): decrement
the gauge and record (now - startTime) / 1000 into the histogram. -/
def postOrders (d : Draws) (s0 : St) : St × PostResponse :=
  let startTime := s0.clock
  let s1 := { s0 with gauge := s0.gauge + 1 }
  let rootIdx := s1.spans.length
  let orderId := genOrderId d.rId
  let amount := genAmount d.rAmount
  let root : Span :=
    { name := "create_order"
      parent := none
      attrs := [("order.id", orderId), ("order.amount", toString amount)]
      statusError := none
      startTime := s1.clock
      endTime := none }
  let s2 := { s1 with spans := s1.spans ++ [root] }
  let s3 := simulateDbQuery "check_inventory" 10 50 d.rInv (some rootIdx) s2
  let s4 := simulateDbQuery "insert_order" 10 50 d.rIns (some rootIdx) s3
  let pay := simulatePaymentProcessing orderId amount d.rSlow d.rPayDelay
    d.rFail (some rootIdx) s4
  let s5 := pay.1
  let afterTry : St × PostResponse :=
    match pay.2 with
    | Except.ok _ =>
      let s6 := simulateDbQuery "update_order_status" 10 50 d.rUpd
        (some rootIdx) s5
      let order : Order := { id := orderId, amount := amount, status := "confirmed" }
      let s7 := { s6 with
        ordersDb := storeSet s6.ordersDb orderId order
        countSuccess := s6.countSuccess + 1
        spans := endSpanAt s6.spans rootIdx s6.clock }
      (s7, PostResponse.created order)
    | Except.error msg =>
      ({ s5 with countError := s5.countError + 1 }, PostResponse.serverError msg)
  let s6 := afterTry.1
  let s7 := { s6 with
    gauge := s6.gauge - 1
    histogram := s6.histogram ++ [(s6.clock - startTime) / 1000] }
  (s7, afterTry.2)

/-- The GET /orders handler: under a `list_orders` span, run the
select_all_orders db query, end the span, respond with every stored
order. -/
def getOrders (r : ℚ) (s : St) : St × List Order :=
  let rootIdx := s.spans.length
  let root : Span :=
    { name := "list_orders"
      parent := none
      attrs := []
      statusError := none
      startTime := s.clock
      endTime := none }
  let s1 := { s with spans := s.spans ++ [root] }
  let s2 := simulateDbQuery "select_all_orders" 10 50 r (some rootIdx) s1
  let s3 := { s2 with spans := endSpanAt s2.spans rootIdx s2.clock }
  (s3, storeValues s3.ordersDb)

/-- Property names that a plain JS object literal inherits from
Object.prototype (plus the __proto__ accessor): reading any of them on
`ordersDb = {}` yields a truthy value even though no order was ever
stored under that name. -/
def protoKeys : List String :=
  ["constructor", "hasOwnProperty", "isPrototypeOf", "propertyIsEnumerable",
   "toLocaleString", "toString", "valueOf", "__proto__",
   "__defineGetter__", "__defineSetter__", "__lookupGetter__",
   "__lookupSetter__"]

/-- Result of the JS property read `ordersDb[k]` on the plain object
store: an own property holding a stored order, a truthy value inherited
from Object.prototype, or undefined. -/
inductive JsLookup where
  | order (o : Order)
  | inherited
  | undef
deriving Repr, DecidableEq

/-- ordersDb[k] with JS semantics: an own property (a stored order)
shadows the prototype chain; otherwise a member of Object.prototype is
found there (truthy, but not an order); every other name reads as
undefined. -/
def jsIndex (db : Store) (k : String) : JsLookup :=
  match storeGet db k with
  | some o => JsLookup.order o
  | none => if k ∈ protoKeys then JsLookup.inherited else JsLookup.undef

/-- Response of the GET /orders/:orderId handler: 200 with the order,
200 with a truthy non-order value inherited from Object.prototype (the
`if (order)` truthiness test passes on it), or 404 with the fixed error
body. -/
inductive GetOrderResponse where
  | found (o : Order)
  | foundInherited
  | notFound
deriving Repr, DecidableEq

/-- The HTTP status code of a GET /orders/:orderId response. -/
def GetOrderResponse.code : GetOrderResponse → Nat
  | .found _ => 200
  | .foundInherited => 200
  | .notFound => 404

/-- The GET /orders/:orderId handler: under a `get_order` span carrying
the requested id, run the select_order db query, read ordersDb[orderId]
(a JS property read, so the prototype chain is consulted), end the span,
then respond 200 when the read value is truthy (a stored order or an
inherited Object.prototype member) and 404 only when it is undefined. -/
def getOrderById (orderId : String) (r : ℚ) (s : St) :
    St × GetOrderResponse :=
  let rootIdx := s.spans.length
  let root : Span :=
    { name := "get_order"
      parent := none
      attrs := [("order.id", orderId)]
      statusError := none
      startTime := s.clock
      endTime := none }
  let s1 := { s with spans := s.spans ++ [root] }
  let s2 := simulateDbQuery "select_order" 10 50 r (some rootIdx) s1
  let order := jsIndex s2.ordersDb orderId
  let s3 := { s2 with spans := endSpanAt s2.spans rootIdx s2.clock }
  match order with
  | JsLookup.order o => (s3, GetOrderResponse.found o)
  | JsLookup.inherited => (s3, GetOrderResponse.foundInherited)
  | JsLookup.undef => (s3, GetOrderResponse.notFound)

/-- The empty initial state of the process. -/
def st0 : St :=
  { clock := 0, spans := [], ordersDb := [], countSuccess := 0,
    countError := 0, gauge := 0, histogram := [] }

/-- Concrete draw vector on which the payment failure draw fires
(rFail = 0 < 0.05) while the slow draw does not (rSlow = 1/2). -/
def drawsFail : Draws :=
  { rId := 0, rAmount := 0, rInv := 0, rIns := 0, rSlow := 1/2,
    rPayDelay := 0, rFail := 0, rUpd := 0 }

/-- Concrete draw vector on which every step succeeds
(rFail = 1/2 ≥ 0.05), drawing order id "10000" and amount 10. -/
def drawsOk : Draws :=
  { rId := 0, rAmount := 0, rInv := 0, rIns := 0, rSlow := 1/2,
    rPayDelay := 0, rFail := 1/2, rUpd := 0 }

/-- Concrete all-success draw vector drawing the same order id "10000"
as `drawsOk` but a different amount (255). -/
def drawsOkB : Draws :=
  { rId := 0, rAmount := 1/2, rInv := 0, rIns := 0, rSlow := 1/2,
    rPayDelay := 0, rFail := 1/2, rUpd := 0 }

/-- The payment.process span produced from the empty state by a draw that
is both slow (rSlow = 0 < 0.1) and failing (rFail = 0 < 0.05). -/
def spSlowFail : Span :=
  { name := "payment.process", parent := none,
    attrs := [("payment.order_id", "10000"),
      ("payment.amount", toString (10:ℚ)), ("payment.slow", "true")],
    statusError := some "Payment declined", startTime := 0,
    endTime := some 1000 }

end OrderService

namespace OrderService

/-- Looking an absent key k' up is unaffected by overwriting key k. -/
theorem find?_map_ne (db : Store) (k k' : String) (v : Order)
    (hk : ¬ k = k') :
    List.find? (fun p => decide (p.1 = k'))
        (List.map (fun p : String × Order => if p.1 = k then (k, v) else p) db)
      = List.find? (fun p => decide (p.1 = k')) db := by
  induction db with
  | nil => rfl
  | cons hd tl ih =>
    by_cases h1 : hd.1 = k
    · have h3 : ¬ hd.1 = k' := by rw [h1]; exact hk
      simp only [List.map_cons, if_pos h1, List.find?]
      rw [show (decide ((k, v).1 = k')) = false by simpa using hk]
      rw [show (decide (hd.1 = k')) = false by simpa using h3]
      exact ih
    · simp only [List.map_cons, if_neg h1, List.find?]
      cases hd2 : decide (hd.1 = k') with
      | true => rfl
      | false => exact ih

/-- Looking a key k' up is unaffected by appending an entry under k ≠ k'. -/
theorem find?_append_one_ne (db : Store) (k k' : String) (v : Order)
    (hk : ¬ k = k') :
    List.find? (fun p => decide (p.1 = k')) (db ++ [(k, v)])
      = List.find? (fun p => decide (p.1 = k')) db := by
  induction db with
  | nil =>
    simp only [List.nil_append, List.find?]
    rw [show (decide ((k, v).1 = k')) = false by simpa using hk]
  | cons hd tl ih =>
    simp only [List.cons_append, List.find?]
    cases hd2 : decide (hd.1 = k') with
    | true => rfl
    | false => exact ih

/-- Reading back the key just written returns the written order. -/
theorem storeGet_storeSet_self (db : Store) (k : String) (v : Order) :
    storeGet (storeSet db k v) k = some v := by
  induction db with
  | nil => simp [storeGet, storeSet, List.find?]
  | cons hd tl ih =>
    by_cases h : hd.1 = k
    · simp [storeGet, storeSet, List.find?, h]
    · by_cases h2 : List.any tl (fun p => p.1 = k)
      · simp [storeGet, storeSet, List.find?, h, h2] at ih ⊢
        exact ih
      · simp [storeGet, storeSet, List.find?, h, h2] at ih ⊢
        exact ih

/-- Writing key k leaves every other key's value unchanged. -/
theorem storeGet_storeSet_ne (db : Store) (k k' : String) (v : Order)
    (h : k' ≠ k) :
    storeGet (storeSet db k v) k' = storeGet db k' := by
  have hk : ¬ (k = k') := fun e => h e.symm
  unfold storeGet storeSet
  by_cases hany : List.any db (fun p => p.1 = k)
  · rw [if_pos hany, find?_map_ne db k k' v hk]
  · rw [if_neg hany, find?_append_one_ne db k k' v hk]

/-- Every POST /orders request appends exactly one value to the
processing-time histogram: the elapsed clock time divided by 1000. -/
theorem postOrders_histogram (d : Draws) (s : St) :
    (postOrders d s).1.histogram
      = s.histogram ++ [((postOrders d s).1.clock - s.clock) / 1000] := by
  by_cases h : d.rFail < 20⁻¹ <;>
    simp [postOrders, simulateDbQuery, simulatePaymentProcessing, h]

/-- With non-negative delay draws, the clock never moves backwards over a
POST /orders request. -/
theorem postOrders_clock_ge (d : Draws) (s : St) (hInv : 0 ≤ d.rInv)
    (hIns : 0 ≤ d.rIns) (hPay : 0 ≤ d.rPayDelay) (hUpd : 0 ≤ d.rUpd) :
    s.clock ≤ (postOrders d s).1.clock := by
  by_cases h : d.rFail < 20⁻¹ <;> by_cases h2 : d.rSlow < 10⁻¹ <;>
    simp [postOrders, simulateDbQuery, simulatePaymentProcessing,
      paymentDelay, h, h2] <;>
    nlinarith

/-- C1: the POST /orders handler increments the in-flight gauge by 1 at
entry and decrements it by 1 in the finally block on every exit path, so
whether the payment step succeeds or rejects, the request's net
contribution to the orders_in_progress gauge is zero. -/
theorem C1_gauge_net_zero (d : Draws) (s : St) :
    (postOrders d s).1.gauge = s.gauge := by
  by_cases h : d.rFail < 20⁻¹ <;>
    simp [postOrders, simulateDbQuery, simulatePaymentProcessing, h]

/-- C2: the claim that every span of a POST /orders request has its end
timestamp set by request completion fails on the payment-failure path:
at the concrete failing draws, after the request completes every child
span is ended but the root create_order span (the head of the span list)
still has endTime unset — the catch block never ends it. -/
theorem C2_root_span_left_unended :
    ((postOrders drawsFail st0).1.spans.map
        (fun sp => (sp.name, sp.endTime))).head? = some ("create_order", none) ∧
    ∀ c ∈ (postOrders drawsFail st0).1.spans.tail, c.endTime ≠ none := by
  norm_num [postOrders, simulateDbQuery, simulatePaymentProcessing,
    paymentDelay, Span.endAt, Span.setStatusError, drawsFail, st0]
  exact ⟨by simp, by simp, by simp⟩

/-- C3: at the concrete failing draws the request stores no order and
increments the error-labelled counter exactly once (and not the success
one) and returns the 500 response, but the root create_order span's
status is left unset rather than being marked ERROR — the catch block
never touches the root span. -/
theorem C3_failure_path_at_input :
    (postOrders drawsFail st0).1.ordersDb = [] ∧
    (postOrders drawsFail st0).1.countError = 1 ∧
    (postOrders drawsFail st0).1.countSuccess = 0 ∧
    (postOrders drawsFail st0).2 = PostResponse.serverError "Payment declined" ∧
    ((postOrders drawsFail st0).1.spans.map
        (fun sp => (sp.name, sp.statusError))).head? = some ("create_order", none) := by
  norm_num [postOrders, simulateDbQuery, simulatePaymentProcessing,
    paymentDelay, Span.endAt, Span.setStatusError, drawsFail, st0]

/-- C4: every POST /orders request, on the success path and the failure
path alike, records exactly one value into the processing-time
histogram, and with non-negative delay draws that value (elapsed time in
seconds) is non-negative. -/
theorem C4_histogram_once_nonneg (d : Draws) (s : St) (hInv : 0 ≤ d.rInv)
    (hIns : 0 ≤ d.rIns) (hPay : 0 ≤ d.rPayDelay) (hUpd : 0 ≤ d.rUpd) :
    ∃ v : ℚ, 0 ≤ v ∧ (postOrders d s).1.histogram = s.histogram ++ [v] :=
  ⟨((postOrders d s).1.clock - s.clock) / 1000,
    div_nonneg (sub_nonneg.2 (postOrders_clock_ge d s hInv hIns hPay hUpd))
      (by norm_num),
    postOrders_histogram d s⟩

/-- Witness for C4 at the concrete all-success draws from the empty
state. -/
theorem C4_histogram_once_nonneg_witness :
    ∃ v : ℚ, 0 ≤ v ∧
      (postOrders drawsOk st0).1.histogram = st0.histogram ++ [v] :=
  C4_histogram_once_nonneg drawsOk st0 (by norm_num [drawsOk])
    (by norm_num [drawsOk]) (by norm_num [drawsOk]) (by norm_num [drawsOk])

/-- C5: every invocation of simulatePaymentProcessing appends exactly one
payment.process span whose end timestamp is set exactly at the delay's
completion instant, regardless of outcome; when the failure draw fires
(rFail < 0.05) the span status is ERROR with the fixed message
"Payment declined" and the promise rejects with that error, otherwise
the span status stays unset and the promise resolves. -/
theorem C5_payment_span (oid : String) (amt rSlow rDelay rFail : ℚ)
    (p : Option Nat) (s : St) :
    ∃ sp : Span,
      (simulatePaymentProcessing oid amt rSlow rDelay rFail p s).1.spans
          = s.spans ++ [sp] ∧
      sp.name = "payment.process" ∧
      sp.endTime = some (s.clock + paymentDelay rSlow rDelay) ∧
      (if rFail < 1/20
        then sp.statusError = some "Payment declined" ∧
          (simulatePaymentProcessing oid amt rSlow rDelay rFail p s).2
            = Except.error "Payment declined"
        else sp.statusError = none ∧
          (simulatePaymentProcessing oid amt rSlow rDelay rFail p s).2
            = Except.ok ()) := by
  by_cases h : rFail < 1/20 <;>
    simp only [simulatePaymentProcessing, Span.endAt, Span.setStatusError,
      if_pos, if_neg, h, if_true, if_false] <;>
    exact ⟨_, rfl, rfl, rfl, rfl, trivial⟩

/-- C6: the delay draw lands in [1000, 3000) when the slow draw fires
(probability threshold 0.1) and in [50, 200) otherwise, the two ranges
being disjoint with every slow delay strictly greater than every normal
delay; the failure outcome is decided solely by the independent failure
draw against threshold 0.05 whatever the slowness draws are; and the two
draws are not mutually exclusive: a draw vector exists that is both slow
and failing. -/
theorem C6_slow_fail_independent (rSlow rDelay rFail : ℚ)
    (h0 : 0 ≤ rDelay) (h1 : rDelay < 1) :
    ((rSlow < 1/10 → 1000 ≤ paymentDelay rSlow rDelay ∧
        paymentDelay rSlow rDelay < 3000) ∧
     (¬ rSlow < 1/10 → 50 ≤ paymentDelay rSlow rDelay ∧
        paymentDelay rSlow rDelay < 200)) ∧
    (∀ sN dN : ℚ, 0 ≤ dN → dN < 1 → ¬ sN < 1/10 → rSlow < 1/10 →
        paymentDelay sN dN < paymentDelay rSlow rDelay) ∧
    (∀ (oid : String) (amt : ℚ) (p : Option Nat) (st : St),
        (simulatePaymentProcessing oid amt rSlow rDelay rFail p st).2
          = if rFail < 1/20 then Except.error "Payment declined"
            else Except.ok ()) ∧
    (∃ sp : Span,
      (simulatePaymentProcessing "10000" 10 0 0 0 none st0).1.spans = [sp] ∧
        ("payment.slow", "true") ∈ sp.attrs ∧
        sp.statusError = some "Payment declined") := by
  refine ⟨⟨?_, ?_⟩, ?_, ?_, ?_⟩
  · intro hs
    rw [paymentDelay, if_pos hs]
    constructor <;> nlinarith
  · intro hs
    rw [paymentDelay, if_neg hs]
    constructor <;> nlinarith
  · intro sN dN hd0 hd1 hsN hs
    rw [paymentDelay, if_neg hsN, paymentDelay, if_pos hs]
    nlinarith
  · intro oid amt p st
    by_cases hf : rFail < 1/20 <;>
      simp only [simulatePaymentProcessing, hf, if_true, if_false,
        ite_true, ite_false]
  · refine ⟨spSlowFail, ?_, ?_, ?_⟩
    · norm_num [simulatePaymentProcessing, paymentDelay, st0,
        Span.endAt, Span.setStatusError, spSlowFail]
    · simp [spSlowFail]
    · rfl

/-- Witness for C6 at a concrete slow draw (rSlow = 0, rDelay = 1/2). -/
theorem C6_slow_fail_independent_witness :
    1000 ≤ paymentDelay 0 (1/2) ∧ paymentDelay 0 (1/2) < 3000 :=
  ((C6_slow_fail_independent 0 (1/2) 0 (by norm_num) (by norm_num)).1.1)
    (by norm_num)

/-- C7: when the payment failure draw does not fire, the request stores
an order with status "confirmed" under the drawn id, increments the
success-labelled counter exactly once, leaves the error-labelled counter
unchanged, and returns a 201 created response carrying the stored
order. -/
theorem C7_success_path (d : Draws) (s : St) (h : ¬ d.rFail < 1/20) :
    (postOrders d s).1.ordersDb
        = storeSet s.ordersDb (genOrderId d.rId)
            { id := genOrderId d.rId, amount := genAmount d.rAmount,
              status := "confirmed" } ∧
    storeGet (postOrders d s).1.ordersDb (genOrderId d.rId)
        = some { id := genOrderId d.rId, amount := genAmount d.rAmount,
                 status := "confirmed" } ∧
    (postOrders d s).1.countSuccess = s.countSuccess + 1 ∧
    (postOrders d s).1.countError = s.countError ∧
    (postOrders d s).2
        = PostResponse.created
            { id := genOrderId d.rId, amount := genAmount d.rAmount,
              status := "confirmed" } ∧
    ((postOrders d s).2).code = 201 := by
  have h' : ¬ d.rFail < 20⁻¹ := by
    rw [show ((20:ℚ)⁻¹) = 1/20 by norm_num]; exact h
  refine ⟨?_, ?_, ?_, ?_, ?_, ?_⟩ <;>
    simp [postOrders, simulateDbQuery, simulatePaymentProcessing, h',
      PostResponse.code, storeGet_storeSet_self]

/-- Witness for C7 at the concrete all-success draws from the empty
state. -/
theorem C7_success_path_witness :
    (postOrders drawsOk st0).1.countSuccess = st0.countSuccess + 1 :=
  (C7_success_path drawsOk st0 (by norm_num [drawsOk])).2.2.1

/-- C8: the claim that every identifier absent from the store gets a 404
fails on the code because ordersDb is a plain JS object and the handler
reads ordersDb[orderId] through the prototype chain: the never-stored
identifier "constructor" finds the truthy inherited
Object.prototype.constructor, so the request is answered 200 with a
non-order value instead of 404, while the equally absent identifier
"99999" does get the 404; neither request mutates the store, and
GET /orders does return every stored order. -/
theorem C8_proto_lookup_divergence :
    storeGet st0.ordersDb "constructor" = none ∧
    (getOrderById "constructor" 0 st0).2 = GetOrderResponse.foundInherited ∧
    ((getOrderById "constructor" 0 st0).2).code = 200 ∧
    storeGet st0.ordersDb "99999" = none ∧
    (getOrderById "99999" 0 st0).2 = GetOrderResponse.notFound ∧
    ((getOrderById "99999" 0 st0).2).code = 404 ∧
    (getOrderById "constructor" 0 st0).1.ordersDb = st0.ordersDb ∧
    (getOrders 0 st0).2 = storeValues st0.ordersDb := by
  refine ⟨?_, ?_, ?_, ?_, ?_, ?_, ?_, ?_⟩ <;>
    simp [getOrderById, getOrders, jsIndex, protoKeys, storeGet, st0,
      simulateDbQuery, GetOrderResponse.code, storeValues, List.find?]

/-- C9 counterexample: two successful POST /orders requests that draw the
same identifier "10000" with different amounts; the second request
overwrites the stored entry (amount 10 becomes 255), so a later
operation does mutate an existing entry, refuting the claim as
stated. -/
theorem C9_entry_overwritten_counterexample :
    storeGet (postOrders drawsOk st0).1.ordersDb "10000"
        = some { id := "10000", amount := 10, status := "confirmed" } ∧
    storeGet (postOrders drawsOkB (postOrders drawsOk st0).1).1.ordersDb "10000"
        = some { id := "10000", amount := 255, status := "confirmed" } ∧
    storeGet (postOrders drawsOkB (postOrders drawsOk st0).1).1.ordersDb "10000"
        ≠ storeGet (postOrders drawsOk st0).1.ordersDb "10000" := by
  norm_num [postOrders, simulateDbQuery, simulatePaymentProcessing,
    paymentDelay, Span.endAt, Span.setStatusError, drawsOk, drawsOkB, st0,
    genOrderId, genAmount, round_eq, storeGet, storeSet, storeValues,
    List.find?]
  decide

/-- C9 amended: an order is written only after all four steps succeed (on
a payment failure the store is unchanged), a successful request changes
the store only at the drawn identifier (every other key keeps its value
and nothing is deleted), and the GET handlers never modify the store;
however a subsequent successful POST /orders that draws an identifier
already present overwrites that entry. -/
theorem C9_store_lifecycle (d : Draws) (s : St) (k : String) (r r' : ℚ) :
    (d.rFail < 1/20 → (postOrders d s).1.ordersDb = s.ordersDb) ∧
    (¬ d.rFail < 1/20 →
        (postOrders d s).1.ordersDb
          = storeSet s.ordersDb (genOrderId d.rId)
              { id := genOrderId d.rId, amount := genAmount d.rAmount,
                status := "confirmed" } ∧
        ∀ k', k' ≠ genOrderId d.rId →
          storeGet (postOrders d s).1.ordersDb k'
            = storeGet s.ordersDb k') ∧
    (getOrders r s).1.ordersDb = s.ordersDb ∧
    (getOrderById k r' s).1.ordersDb = s.ordersDb := by
  refine ⟨?_, ?_, ?_, ?_⟩
  · intro h
    have h' : d.rFail < 20⁻¹ := by
      rw [show ((20:ℚ)⁻¹) = 1/20 by norm_num]; exact h
    simp [postOrders, simulateDbQuery, simulatePaymentProcessing, h']
  · intro h
    have h' : ¬ d.rFail < 20⁻¹ := by
      rw [show ((20:ℚ)⁻¹) = 1/20 by norm_num]; exact h
    constructor
    · simp [postOrders, simulateDbQuery, simulatePaymentProcessing, h']
    · intro k' hk'
      have hdb : (postOrders d s).1.ordersDb
          = storeSet s.ordersDb (genOrderId d.rId)
              { id := genOrderId d.rId, amount := genAmount d.rAmount,
                status := "confirmed" } := by
        simp [postOrders, simulateDbQuery, simulatePaymentProcessing, h']
      rw [hdb, storeGet_storeSet_ne _ _ _ _ hk']
  · simp [getOrders, simulateDbQuery, endSpanAt]
  · simp only [getOrderById, simulateDbQuery, endSpanAt]
    split <;> rfl

/-- Witness for C9 amended, instantiated at the concrete all-success
draws and the empty state: the failure-path implication is vacuous there
and the GET handlers leave the store unchanged. -/
theorem C9_store_lifecycle_witness :
    (getOrders 0 st0).1.ordersDb = st0.ordersDb :=
  (C9_store_lifecycle drawsOk st0 "10000" 0 0).2.2.1

/-- C10: with the draw in [0,1), the generated order identifier is the
decimal string of an integer in [10000, 99999] (five decimal digits);
the handler performs no uniqueness check — a successful request writes
the drawn identifier into the store whatever the store already holds —
and two distinct draws can generate the same identifier. -/
theorem C10_order_id_generation (d : Draws) (s : St)
    (h0 : 0 ≤ d.rId) (h1 : d.rId < 1) :
    (∃ n : ℕ, genOrderId d.rId = toString n ∧ 10000 ≤ n ∧ n ≤ 99999 ∧
        (Nat.digits 10 n).length = 5) ∧
    (¬ d.rFail < 1/20 →
        storeGet (postOrders d s).1.ordersDb (genOrderId d.rId)
          = some { id := genOrderId d.rId, amount := genAmount d.rAmount,
                   status := "confirmed" }) ∧
    (genOrderId 0 = genOrderId (1/180000) ∧ (0:ℚ) ≠ 1/180000) := by
  have hfl0 : 0 ≤ ⌊d.rId * 90000⌋ := Int.floor_nonneg.2 (by positivity)
  have hfl1 : ⌊d.rId * 90000⌋ < 90000 := by
    apply Int.floor_lt.2
    push_cast
    nlinarith
  refine ⟨⟨(⌊d.rId * 90000⌋ + 10000).toNat, ?_, ?_, ?_, ?_⟩, ?_, ?_, ?_⟩
  · unfold genOrderId
    conv_lhs =>
      rw [← Int.toNat_of_nonneg (show (0:ℤ) ≤ ⌊d.rId * 90000⌋ + 10000 by omega)]
    rfl
  · omega
  · omega
  · have hlog : Nat.log 10 (⌊d.rId * 90000⌋ + 10000).toNat = 4 :=
      Nat.log_eq_of_pow_le_of_lt_pow (by omega) (by omega)
    rw [Nat.digits_len 10 _ (by norm_num) (by omega), hlog]
  · intro h
    have h' : ¬ d.rFail < 20⁻¹ := by
      rw [show ((20:ℚ)⁻¹) = 1/20 by norm_num]; exact h
    have hdb : (postOrders d s).1.ordersDb
        = storeSet s.ordersDb (genOrderId d.rId)
            { id := genOrderId d.rId, amount := genAmount d.rAmount,
              status := "confirmed" } := by
      simp [postOrders, simulateDbQuery, simulatePaymentProcessing, h']
    rw [hdb, storeGet_storeSet_self]
  · norm_num [genOrderId]
  · norm_num

/-- Witness for C10 at the concrete all-success draws from the empty
state. -/
theorem C10_order_id_generation_witness :
    ∃ n : ℕ, genOrderId drawsOk.rId = toString n ∧ 10000 ≤ n ∧
      n ≤ 99999 ∧ (Nat.digits 10 n).length = 5 :=
  (C10_order_id_generation drawsOk st0 (by norm_num [drawsOk])
    (by norm_num [drawsOk])).1

end OrderService
